import Mathlib

set_option maxRecDepth 100000

/-!
Shallow embedding of the API Service Bridge example plugin.

Source files embedded here:
* the request wrapper `ApiServiceWrapper` (apiService.ts): connection state,
  request dispatch, error classification (`handleApiError`, `createApiError`,
  `getErrorMessage`, `getErrorCode`);
* the external reachability checker `ExternalApiService`
  (externalApiService.ts): `checkCommunityStatus`, `performMultipleChecks`;
* the domain CRUD layer `DemoApiService` (demoApiService.ts): `getItems`,
  `createItem`, `updateItem`, `deleteItem`, `getStatus`, `healthCheck`,
  `validateItemData`.

JavaScript runtime behaviour that the TypeScript text leaves implicit is made
explicit in the embedding and documented at each definition: string
truthiness of `a || b`, optional chaining, and the fact that an object
literal is not an `instanceof Error`.
Wall-clock readings taken with Date.now and new Date().toISOString are
modelled as explicit input parameters.
-/

/-- Boolean test that `sub` occurs as a contiguous run inside the character
list, embedding JavaScript `String.prototype.includes`. -/
def containsAux (sub : List Char) : List Char → Bool
  | [] => sub.isEmpty
  | c :: rest => sub.isPrefixOf (c :: rest) || containsAux sub rest

/-- Embedding of JavaScript `s.includes(sub)` on strings. -/
def containsSub (s sub : String) : Bool := containsAux sub.toList s.toList

/-- Embedding of JavaScript `s.trim()`: drop leading and trailing whitespace.
Defined over the character list so that it evaluates inside the kernel. -/
def jsTrim (s : String) : String :=
  String.mk (((s.toList.dropWhile Char.isWhitespace).reverse.dropWhile
      Char.isWhitespace).reverse)

/-- Embedding of JavaScript `a || d` where `a : string | undefined` and the
empty string is falsy: `undefined` and `""` both fall through to `d`. -/
def jsOrStr (a : Option String) (d : String) : String :=
  match a with
  | some s => if s = "" then d else s
  | none => d

/-- JavaScript truthiness of an optional string: `undefined` and `""` are
falsy, every other string is truthy. -/
def jsTruthy : Option String → Option String
  | some s => if s = "" then none else some s
  | none => none

/-- The apostrophe character, used to build message strings of the source. -/
def apos : String := String.mk ['\'']

/- ===== Data model, from src/types/api.ts ===== -/

/-- Body of an HTTP error response as read by the classifier: only the
`detail` and `message` fields are ever consulted (`responseData?.detail`,
`responseData?.message` in `getErrorMessage`). -/
structure ResponseData where
  detail : Option String
  message : Option String
  deriving DecidableEq

/-- An HTTP-style response carried by a raised error (`error.response` with
`error.response.status` and `error.response.data`). -/
structure HttpResponse where
  status : Nat
  data : ResponseData
  deriving DecidableEq

/-- A raw value raised by the transport, as inspected by `handleApiError`:
`error?.response` (HTTP-shaped errors), `error?.code` (for example
ERR_NETWORK), `error?.message` (`none` models an absent/undefined field). -/
structure RawError where
  response : Option HttpResponse
  code : Option String
  message : Option String
  deriving DecidableEq

/-- The `details` payload attached by `createApiError`: the classifier passes
an object holding `responseData` (HTTP branch only) and `responseTime`. -/
structure ErrorDetails where
  responseData : Option ResponseData
  responseTime : Option Int
  deriving DecidableEq

/-- The ApiError interface from src/types/api.ts: the Classified Error shape
produced by the wrapper. -/
structure ApiError where
  message : String
  status : Option Nat
  code : Option String
  details : Option ErrorDetails
  deriving DecidableEq

/-- Request timing record from src/types (startTime, endTime, duration). -/
structure RequestTiming where
  startTime : Int
  endTime : Int
  duration : Int
  deriving DecidableEq

/-- The OperationResult envelope from src/types/demo.ts: success flag,
optional payload, optional error string, optional timing. -/
structure OperationResult (T : Type) where
  success : Bool
  data : Option T
  error : Option String
  timing : Option RequestTiming
  deriving DecidableEq

/- ===== Error classification, from ApiServiceWrapper (apiService.ts) ===== -/

/-- Embedding of `createApiError(error, status?, code?, details?)`: builds the
plain object literal with `message: error?.message || 'An unknown error
occurred'` and the given status, code and details. -/
def createApiError (error : RawError) (status : Option Nat) (code : Option String)
    (details : Option ErrorDetails) : ApiError :=
  { message := jsOrStr error.message "An unknown error occurred"
    status := status
    code := code
    details := details }

/-- Embedding of `getErrorCode(status)`: the fixed status to code table with
HTTP_ERROR as the fallback. -/
def getErrorCode (status : Nat) : String :=
  match status with
  | 400 => "BAD_REQUEST"
  | 401 => "UNAUTHORIZED"
  | 403 => "FORBIDDEN"
  | 404 => "NOT_FOUND"
  | 422 => "VALIDATION_ERROR"
  | 500 => "INTERNAL_SERVER_ERROR"
  | 503 => "SERVICE_UNAVAILABLE"
  | _ => "HTTP_ERROR"

/-- Embedding of `getErrorMessage(status, responseData)`: computes
`serverMessage = responseData?.detail || responseData?.message` and then
switches on the status.  In the source only the 400, 404, 422 and default
branches consult `serverMessage`; 401, 403, 500 and 503 return fixed text. -/
def getErrorMessage (status : Nat) (responseData : Option ResponseData) : String :=
  let serverMessage : Option String :=
    match jsTruthy (responseData.bind ResponseData.detail) with
    | some s => some s
    | none => responseData.bind ResponseData.message
  match status with
  | 400 => jsOrStr serverMessage "Bad request - please check your input"
  | 401 => "Authentication required - please log in"
  | 403 => "Access denied - you don" ++ apos ++ "t have permission for this action"
  | 404 => jsOrStr serverMessage "Resource not found"
  | 422 => jsOrStr serverMessage "Validation error - please check your input"
  | 500 => "Server error - please try again later"
  | 503 => "Service unavailable - please try again later"
  | _ => jsOrStr serverMessage ("HTTP " ++ toString status ++ " error occurred")

/-- Test used by the third classifier branch:
`error?.message?.includes('timeout')`; an absent message is falsy. -/
def messageMentionsTimeout (error : RawError) : Bool :=
  match error.message with
  | some m => containsSub m "timeout"
  | none => false

/-- Embedding of `handleApiError(error, responseTime)`, the classifier
cascade.  Branch order as in the source: HTTP-shaped errors first, then
`error?.code === 'ERR_NETWORK'`, then a message mentioning a timeout, then
the generic fallback.  In the HTTP branch the source computes
`const message = this.getErrorMessage(status, error.response.data)` and then
never uses it (`createApiError` reads `error?.message` instead); the unused
binding is kept here as `_message` to mirror that line. -/
def handleApiError (error : RawError) (responseTime : Int) : ApiError :=
  match error.response with
  | some r =>
    let _message : String := getErrorMessage r.status (some r.data)
    createApiError error (some r.status) (some (getErrorCode r.status))
      (some { responseData := some r.data, responseTime := some responseTime })
  | none =>
    if error.code = some "ERR_NETWORK" then
      createApiError error (some 0) (some "NETWORK_ERROR")
        (some { responseData := none, responseTime := some responseTime })
    else if messageMentionsTimeout error then
      createApiError error (some 408) (some "TIMEOUT")
        (some { responseData := none, responseTime := some responseTime })
    else
      createApiError error (some 500) (some "UNKNOWN_ERROR")
        (some { responseData := none, responseTime := some responseTime })

/- ===== Request wrapper state machine (apiService.ts) ===== -/

/-- HTTP verbs reachable through the wrapper entry points get/post/put/delete. -/
inductive Method where
  | GET | POST | PUT | DELETE
  deriving DecidableEq

/-- The ApiResponse envelope from src/types/api.ts returned on the wrapper
success path. -/
structure ApiResponse (R : Type) where
  data : R
  status : Nat
  responseTime : Int
  timestamp : String
  deriving DecidableEq

/-- The host-supplied API Service Bridge object: one method per verb, each
either resolving with a response value or rejecting with a raw error.
`P` is the payload type, `R` the resolved value type. -/
structure Transport (P R : Type) where
  get : String → Except RawError R
  post : String → Option P → Except RawError R
  put : String → Option P → Except RawError R
  delete : String → Except RawError R

/-- Dispatch of `makeRequest`'s switch over the verb onto the transport. -/
def runTransport {P R : Type} (t : Transport P R) :
    Method → String → Option P → Except RawError R
  | .GET, path, _ => t.get path
  | .POST, path, d => t.post path d
  | .PUT, path, d => t.put path d
  | .DELETE, path, _ => t.delete path

/-- The mutable fields of `ApiServiceWrapper`: the installed bridge (null
before `setServiceBridge`), the `isConnected` flag, and the request counter. -/
structure WrapperState (P R : Type) where
  apiService : Option (Transport P R)
  isConnected : Bool
  requestCount : Nat

/-- The wrapper state right after the constructor ran: no bridge installed,
not connected, zero requests. -/
def initialWrapperState {P R : Type} : WrapperState P R :=
  { apiService := none, isConnected := false, requestCount := 0 }

/-- Embedding of `setServiceBridge(service)`: stores the bridge and sets the
connected flag unconditionally (a null argument still sets the flag). -/
def setServiceBridge {P R : Type} (st : WrapperState P R)
    (service : Option (Transport P R)) : WrapperState P R :=
  { st with apiService := service, isConnected := true }

/-- Embedding of `isServiceConnected()`:
`this.isConnected && this.apiService !== null`. -/
def isServiceConnected {P R : Type} (st : WrapperState P R) : Bool :=
  st.isConnected && st.apiService.isSome

/-- The classified error thrown by `makeRequest` when the service is not
connected: `createApiError(new Error('API Service not connected'), 503,
'SERVICE_NOT_CONNECTED')` with no details argument. -/
def notConnectedError : ApiError :=
  createApiError
    { response := none, code := none, message := some "API Service not connected" }
    (some 503) (some "SERVICE_NOT_CONNECTED") none

/-- Result of one `makeRequest` call: the value returned or the classified
error thrown, the wrapper state afterwards, and the list of transport
invocations the call performed (verb and path), used to reason about which
network calls were issued. -/
structure MakeRequestResult (P R : Type) where
  outcome : Except ApiError (ApiResponse R)
  state : WrapperState P R
  calls : List (Method × String)

/-- Embedding of `makeRequest(method, path, data, options)`.  `startTime` and
`endTime` are the two Date.now readings, `stamp` the ISO timestamp of the
success envelope; the opaque `options` argument is forwarded unchanged in the
source and is not modelled.  When `isServiceConnected()` is false the call
throws `notConnectedError` before touching the counter or the transport;
otherwise the counter is incremented, the transport verb method is awaited,
and either a status-200 ApiResponse is returned or the raised error is routed
through `handleApiError`. -/
def makeRequest {P R : Type} (st : WrapperState P R) (method : Method)
    (path : String) (data : Option P) (startTime endTime : Int)
    (stamp : String) : MakeRequestResult P R :=
  match st.isConnected, st.apiService with
  | true, some t =>
    let st2 : WrapperState P R := { st with requestCount := st.requestCount + 1 }
    match runTransport t method path data with
    | .ok resp =>
      { outcome := Except.ok
          { data := resp
            status := 200
            responseTime := endTime - startTime
            timestamp := stamp }
        state := st2
        calls := [(method, path)] }
    | .error e =>
      { outcome := Except.error (handleApiError e (endTime - startTime))
        state := st2
        calls := [(method, path)] }
  | _, _ =>
    { outcome := Except.error notConnectedError, state := st, calls := [] }

/- ===== External reachability checker (externalApiService.ts) ===== -/

/-- The status of an ApiCheckResult from src/types/api.ts:
online, offline, error or checking. -/
inductive CheckStatus where
  | online | offline | error | checking
  deriving DecidableEq

/-- A value thrown by the probe's fetch, as discriminated by the catch block
of `checkCommunityStatus`: either an `instanceof Error` object with its
`name` and `message`, or any other thrown value. -/
inductive ThrownValue where
  | errObj (name : String) (message : String)
  | nonError
  deriving DecidableEq

/-- Outcome of the probe's `fetch` call: resolution with a response whose
`status` may be 0 for an opaque no-cors response, or rejection with a thrown
value (the 10-second abort rejects with an Error named AbortError). -/
inductive FetchOutcome where
  | ok (status : Nat)
  | thrown (v : ThrownValue)
  deriving DecidableEq

/-- The fixed probe target of `ExternalApiService`. -/
def targetUrl : String := "https://community.braindrive.ai/"

/-- The ApiCheckResult record from src/types/api.ts. -/
structure ApiCheckResult where
  url : String
  status : CheckStatus
  responseTime : Option Int
  timestamp : String
  statusCode : Option Nat
  error : Option String
  deriving DecidableEq

instance : Inhabited ApiCheckResult :=
  ⟨{ url := "", status := .checking, responseTime := none, timestamp := ""
     statusCode := none, error := none }⟩

/-- The status and error text chosen by the catch block of
`checkCommunityStatus` (source lines 80 to 93): the defaults are offline and
"Unknown error"; an `instanceof Error` value first adopts its message, then
an AbortError becomes an error-status timeout, then a message containing
NetworkError or Failed to fetch becomes the fixed network text. -/
def classifyThrown : ThrownValue → CheckStatus × String
  | .nonError => (CheckStatus.offline, "Unknown error")
  | .errObj n m =>
    if n = "AbortError" then
      (CheckStatus.error, "Request timeout after 10 seconds")
    else if containsSub m "NetworkError" || containsSub m "Failed to fetch" then
      (CheckStatus.offline, "Network error - site may be down or unreachable")
    else
      (CheckStatus.offline, m)

/-- Embedding of `checkCommunityStatus()` for one probe.  `outcome` is what
the fetch did, `startTime` and `endTime` the two Date.now readings, `stamp`
the ISO timestamp.  A resolving fetch yields a success envelope whose result
is online with `statusCode: response.status || null` and no error text; a
rejecting fetch yields a failure envelope whose result carries the status and
message chosen by `classifyThrown`, a null statusCode, and the same message
as the envelope error string. -/
def checkCommunityStatus (outcome : FetchOutcome) (startTime endTime : Int)
    (stamp : String) : OperationResult ApiCheckResult :=
  let responseTime : Int := endTime - startTime
  match outcome with
  | .ok s =>
    { success := true
      data := some
        { url := targetUrl
          status := CheckStatus.online
          responseTime := some responseTime
          timestamp := stamp
          statusCode := if s = 0 then none else some s
          error := none }
      error := none
      timing := some { startTime := startTime, endTime := endTime, duration := responseTime } }
  | .thrown v =>
    let sm := classifyThrown v
    { success := false
      data := some
        { url := targetUrl
          status := sm.1
          responseTime := some responseTime
          timestamp := stamp
          statusCode := none
          error := some sm.2 }
      error := some sm.2
      timing := some { startTime := startTime, endTime := endTime, duration := responseTime } }

/-- The Reachability Result of one probe, total because
`checkCommunityStatus` fills the data field on both paths. -/
def checkData (outcome : FetchOutcome) (startTime endTime : Int)
    (stamp : String) : ApiCheckResult :=
  ((checkCommunityStatus outcome startTime endTime stamp).data).getD default

/-- Events observable in a `performMultipleChecks` run, in order: the waits
between checks and the individual probes. -/
inductive CheckEvent where
  | sleep (ms : Nat)
  | probe (i : Nat)
  deriving DecidableEq

/-- Environment of a multi-check run: for the i-th probe, the fetch outcome
and the wall-clock readings it observes. -/
structure CheckEnv where
  outcome : Nat → FetchOutcome
  startT : Nat → Int
  endT : Nat → Int
  stamp : Nat → String

/-- Fault injection for the try/catch of `performMultipleChecks`: a fault at
iteration `i` raises with the given message there, exercising the catch
branch that returns the partial results.  No step of the loop can actually
raise, so real runs use `none`. -/
def faultHere (fault : Option (Nat × String)) (i : Nat) : Option String :=
  match fault with
  | some (k, m) => if i = k then some m else none
  | none => none

/-- The loop of `performMultipleChecks`, from iteration `i` with the given
number of iterations remaining.  Per iteration: sleep `intervalMs` unless
this is the first iteration, run one check, and push its data field when
present.  Returns the accumulated results, the event trace, and the message
of the fault that ended the loop, if any. -/
def runChecks (env : CheckEnv) (intervalMs : Nat) (fault : Option (Nat × String)) :
    Nat → Nat → List ApiCheckResult × List CheckEvent × Option String
  | _, 0 => ([], [], none)
  | i, rem + 1 =>
    match faultHere fault i with
    | some m => ([], [], some m)
    | none =>
      let cr := checkCommunityStatus (env.outcome i) (env.startT i) (env.endT i) (env.stamp i)
      let rest := runChecks env intervalMs fault (i + 1) rem
      ((match cr.data with | some d => [d] | none => []) ++ rest.1,
       (if i = 0 then [] else [CheckEvent.sleep intervalMs])
         ++ CheckEvent.probe i :: rest.2.1,
       rest.2.2)

/-- Embedding of `performMultipleChecks(count, intervalMs)` together with the
event trace of the run.  The try branch returns a success envelope with every
result; the catch branch returns a failure envelope carrying the fault
message and the partial results accumulated so far. -/
def performMultipleChecks (env : CheckEnv) (count intervalMs : Nat)
    (fault : Option (Nat × String)) (startTime endTime : Int) :
    OperationResult (List ApiCheckResult) × List CheckEvent :=
  let r := runChecks env intervalMs fault 0 count
  match r.2.2 with
  | none =>
    ({ success := true
       data := some r.1
       error := none
       timing := some { startTime := startTime, endTime := endTime, duration := endTime - startTime } },
     r.2.1)
  | some m =>
    ({ success := false
       data := some r.1
       error := some m
       timing := some { startTime := startTime, endTime := endTime, duration := endTime - startTime } },
     r.2.1)

/-- The online-count summary the run derives from its results
(source line 147): the number of results whose status is online. -/
def onlineCount (rs : List ApiCheckResult) : Nat :=
  (rs.filter (fun r => r.status == CheckStatus.online)).length

/- ===== Domain CRUD layer (demoApiService.ts) ===== -/

/-- The DemoItem record from src/types/api.ts. -/
structure DemoItem where
  id : String
  name : String
  description : String
  user_id : String
  created_at : String
  updated_at : String
  deriving DecidableEq

/-- The DemoItemsResponse body unwrapped by `getItems`. -/
structure DemoItemsResponse where
  data : List DemoItem
  count : Nat
  message : String
  deriving DecidableEq

/-- The DemoItemResponse body unwrapped by `createItem` and `updateItem`. -/
structure DemoItemResponse where
  data : DemoItem
  message : String
  deriving DecidableEq

/-- The CreateItemRequest payload.  The TypeScript interface declares `name`
required, but `createItem` guards it with optional chaining
(`itemData.name?.trim()`), so an absent name is representable. -/
structure CreateItemRequest where
  name : Option String
  description : String
  deriving DecidableEq

/-- The UpdateItemRequest payload: both fields optional. -/
structure UpdateItemRequest where
  name : Option String
  description : Option String
  deriving DecidableEq

/-- The base URL of the demo endpoints. -/
def baseUrl : String := "/api/v1/demo"

/-- A value caught by a domain operation's catch block, discriminated the way
`error instanceof Error` discriminates it: validation failures are raised
with `throw new Error(...)` and are Error instances; the wrapper's
`makeRequest` raises the object literal built by `createApiError`, which is
not an Error instance. -/
inductive CaughtValue where
  | errorInstance (message : String)
  | plainApiError (e : ApiError)
  deriving DecidableEq

/-- Embedding of the catch-block expression
`error instanceof Error ? error.message : fallback` shared by every domain
operation. -/
def caughtMessage (v : CaughtValue) (fallback : String) : String :=
  match v with
  | .errorInstance m => m
  | .plainApiError _ => fallback

/-- Result of one domain operation: the envelope handed to the caller, the
wrapper state afterwards, and the wrapper requests (verb and path) the
operation issued; a local validation failure issues none. -/
structure DomainResult (P R T : Type) where
  envelope : OperationResult T
  state : WrapperState P R
  calls : List (Method × String)

/-- Embedding of `getItems()`: a GET on baseUrl/items; on success unwraps
`response.data.data`; on a raised classified error the catch block sees a
plain object (not an Error instance) and stores the fallback
"Failed to fetch items". -/
def getItems {P : Type} (st : WrapperState P DemoItemsResponse)
    (opStart opEnd reqStart reqEnd : Int) (stamp : String) :
    DomainResult P DemoItemsResponse (List DemoItem) :=
  let r := makeRequest st Method.GET (baseUrl ++ "/items") none reqStart reqEnd stamp
  match r.outcome with
  | .ok resp =>
    { envelope :=
        { success := true
          data := some resp.data.data
          error := none
          timing := some { startTime := opStart, endTime := opEnd, duration := opEnd - opStart } }
      state := r.state
      calls := [(Method.GET, baseUrl ++ "/items")] }
  | .error e =>
    { envelope :=
        { success := false
          data := none
          error := some (caughtMessage (CaughtValue.plainApiError e) "Failed to fetch items")
          timing := some { startTime := opStart, endTime := opEnd, duration := opEnd - opStart } }
      state := r.state
      calls := [(Method.GET, baseUrl ++ "/items")] }

/-- Embedding of `createItem(itemData)`: first the local guard
`if (!itemData.name?.trim()) throw new Error('Item name is required')` — an
absent name or a name that trims to the empty string raises before any
network call, and that Error instance's own message is what the catch block
stores; otherwise one POST is issued and either the created item is unwrapped
or the raised classified error (a plain object) is replaced by the fallback
"Failed to create item". -/
def createItem (st : WrapperState CreateItemRequest DemoItemResponse)
    (itemData : CreateItemRequest) (opStart opEnd reqStart reqEnd : Int)
    (stamp : String) : DomainResult CreateItemRequest DemoItemResponse DemoItem :=
  let timing := some { startTime := opStart, endTime := opEnd, duration := opEnd - opStart : RequestTiming }
  if jsTruthy (itemData.name.map jsTrim) = none then
    { envelope :=
        { success := false
          data := none
          error := some (caughtMessage (CaughtValue.errorInstance "Item name is required")
            "Failed to create item")
          timing := timing }
      state := st
      calls := [] }
  else
    let r := makeRequest st Method.POST (baseUrl ++ "/items") (some itemData)
      reqStart reqEnd stamp
    match r.outcome with
    | .ok resp =>
      { envelope :=
          { success := true, data := some resp.data.data, error := none, timing := timing }
        state := r.state
        calls := [(Method.POST, baseUrl ++ "/items")] }
    | .error e =>
      { envelope :=
          { success := false
            data := none
            error := some (caughtMessage (CaughtValue.plainApiError e) "Failed to create item")
            timing := timing }
        state := r.state
        calls := [(Method.POST, baseUrl ++ "/items")] }

/-- Embedding of `updateItem(id, itemData)`: the local guard `if (!id)`
raises an Error instance before any network call when the id is the empty
string; otherwise one PUT on baseUrl/items/id is issued. -/
def updateItem (st : WrapperState UpdateItemRequest DemoItemResponse)
    (id : String) (itemData : UpdateItemRequest) (opStart opEnd reqStart reqEnd : Int)
    (stamp : String) : DomainResult UpdateItemRequest DemoItemResponse DemoItem :=
  let timing := some { startTime := opStart, endTime := opEnd, duration := opEnd - opStart : RequestTiming }
  if id = "" then
    { envelope :=
        { success := false
          data := none
          error := some (caughtMessage (CaughtValue.errorInstance "Item ID is required")
            "Failed to update item")
          timing := timing }
      state := st
      calls := [] }
  else
    let r := makeRequest st Method.PUT (baseUrl ++ "/items/" ++ id) (some itemData)
      reqStart reqEnd stamp
    match r.outcome with
    | .ok resp =>
      { envelope :=
          { success := true, data := some resp.data.data, error := none, timing := timing }
        state := r.state
        calls := [(Method.PUT, baseUrl ++ "/items/" ++ id)] }
    | .error e =>
      { envelope :=
          { success := false
            data := none
            error := some (caughtMessage (CaughtValue.plainApiError e) "Failed to update item")
            timing := timing }
        state := r.state
        calls := [(Method.PUT, baseUrl ++ "/items/" ++ id)] }

/-- Embedding of `deleteItem(id)`: the same empty-id guard, then one DELETE;
the success envelope carries no payload. -/
def deleteItem {R : Type} (st : WrapperState Unit R) (id : String)
    (opStart opEnd reqStart reqEnd : Int) (stamp : String) :
    DomainResult Unit R Unit :=
  let timing := some { startTime := opStart, endTime := opEnd, duration := opEnd - opStart : RequestTiming }
  if id = "" then
    { envelope :=
        { success := false
          data := none
          error := some (caughtMessage (CaughtValue.errorInstance "Item ID is required")
            "Failed to delete item")
          timing := timing }
      state := st
      calls := [] }
  else
    let r := makeRequest st Method.DELETE (baseUrl ++ "/items/" ++ id) none
      reqStart reqEnd stamp
    match r.outcome with
    | .ok _ =>
      { envelope := { success := true, data := none, error := none, timing := timing }
        state := r.state
        calls := [(Method.DELETE, baseUrl ++ "/items/" ++ id)] }
    | .error e =>
      { envelope :=
          { success := false
            data := none
            error := some (caughtMessage (CaughtValue.plainApiError e) "Failed to delete item")
            timing := timing }
        state := r.state
        calls := [(Method.DELETE, baseUrl ++ "/items/" ++ id)] }

/-- Embedding of `getStatus()`: a GET on baseUrl/status returning the raw
response data, with fallback "Failed to get status" on a caught plain
classified error. -/
def getStatus {R : Type} (st : WrapperState Unit R)
    (opStart opEnd reqStart reqEnd : Int) (stamp : String) :
    DomainResult Unit R R :=
  let timing := some { startTime := opStart, endTime := opEnd, duration := opEnd - opStart : RequestTiming }
  let r := makeRequest st Method.GET (baseUrl ++ "/status") none reqStart reqEnd stamp
  match r.outcome with
  | .ok resp =>
    { envelope := { success := true, data := some resp.data, error := none, timing := timing }
      state := r.state
      calls := [(Method.GET, baseUrl ++ "/status")] }
  | .error e =>
    { envelope :=
        { success := false
          data := none
          error := some (caughtMessage (CaughtValue.plainApiError e) "Failed to get status")
          timing := timing }
      state := r.state
      calls := [(Method.GET, baseUrl ++ "/status")] }

/-- Embedding of `healthCheck()`: a GET on baseUrl/health, fallback
"Health check failed" on a caught plain classified error. -/
def healthCheck {R : Type} (st : WrapperState Unit R)
    (opStart opEnd reqStart reqEnd : Int) (stamp : String) :
    DomainResult Unit R R :=
  let timing := some { startTime := opStart, endTime := opEnd, duration := opEnd - opStart : RequestTiming }
  let r := makeRequest st Method.GET (baseUrl ++ "/health") none reqStart reqEnd stamp
  match r.outcome with
  | .ok resp =>
    { envelope := { success := true, data := some resp.data, error := none, timing := timing }
      state := r.state
      calls := [(Method.GET, baseUrl ++ "/health")] }
  | .error e =>
    { envelope :=
        { success := false
          data := none
          error := some (caughtMessage (CaughtValue.plainApiError e) "Health check failed")
          timing := timing }
      state := r.state
      calls := [(Method.GET, baseUrl ++ "/health")] }

/-- Input of `validateItemData`: either request shape, with absent fields
modelling both a missing key and an undefined value (the source guards each
field with `'name' in data && data.name !== undefined`). -/
structure ItemData where
  name : Option String
  description : Option String
  deriving DecidableEq

/-- The record returned by `validateItemData`. -/
structure ValidationResult where
  isValid : Bool
  errors : List String
  deriving DecidableEq

/-- Embedding of `validateItemData(data)`: a present name that trims empty
pushes "Name is required", otherwise a name longer than 100 characters pushes
the name-length message; a present description longer than 500 characters
pushes the description-length message; isValid is the emptiness of the
accumulated list. -/
def validateItemData (data : ItemData) : ValidationResult :=
  let nameErrors : List String :=
    match data.name with
    | some n =>
      if jsTrim n = "" then ["Name is required"]
      else if n.length > 100 then ["Name must be 100 characters or less"]
      else []
    | none => []
  let descriptionErrors : List String :=
    match data.description with
    | some d =>
      if d.length > 500 then ["Description must be 500 characters or less"]
      else []
    | none => []
  let errors := nameErrors ++ descriptionErrors
  { isValid := errors.isEmpty, errors := errors }

/- ===== Concrete fixtures for closed evaluations ===== -/

/-- A string of n copies of the letter x, for the length-bound test cases. -/
def longStr (n : Nat) : String := String.mk (List.replicate n 'x')

/-- An HTTP error body with neither detail nor message. -/
def emptyBody : ResponseData := { detail := none, message := none }

/-- A raised error carrying an HTTP 400 response with an empty body, with the
raw message an HTTP client library would attach. -/
def err400 : RawError :=
  { response := some { status := 400, data := emptyBody }
    code := none
    message := some "Request failed with status code 400" }

/-- A raised error carrying an HTTP 404 response with an empty body. -/
def err404 : RawError :=
  { response := some { status := 404, data := emptyBody }
    code := none
    message := some "Request failed with status code 404" }

/-- A transport whose every call rejects with `err404`. -/
def failingItemsTransport : Transport Unit DemoItemsResponse :=
  { get := fun _ => Except.error err404
    post := fun _ _ => Except.error err404
    put := fun _ _ => Except.error err404
    delete := fun _ => Except.error err404 }

/-- A connected wrapper over `failingItemsTransport`. -/
def failingItemsState : WrapperState Unit DemoItemsResponse :=
  { apiService := some failingItemsTransport, isConnected := true, requestCount := 0 }

/-- A transport whose every call resolves with the unit value. -/
def okUnitTransport : Transport Unit Unit :=
  { get := fun _ => Except.ok ()
    post := fun _ _ => Except.ok ()
    put := fun _ _ => Except.ok ()
    delete := fun _ => Except.ok () }

/-- A connected wrapper over `okUnitTransport`. -/
def okUnitState : WrapperState Unit Unit :=
  { apiService := some okUnitTransport, isConnected := true, requestCount := 0 }

/-- A wrapper that was never connected but has a nonzero prior counter. -/
def disconnectedState : WrapperState Unit Unit :=
  { apiService := none, isConnected := false, requestCount := 5 }

/-- A probe environment in which every fetch rejects with the browser's
network failure (a TypeError whose message is Failed to fetch). -/
def netFailEnv : CheckEnv :=
  { outcome := fun _ => FetchOutcome.thrown (ThrownValue.errObj "TypeError" "Failed to fetch")
    startT := fun _ => 0
    endT := fun _ => 7
    stamp := fun _ => "2026-01-01T00:00:00Z" }

/-- A raised error that both carries an HTTP 503 response and has a message
containing the word timeout, exercising the classifier's branch priority. -/
def timeoutHttpError : RawError :=
  { response := some { status := 503, data := emptyBody }
    code := none
    message := some "timeout of 10000ms exceeded" }

/-- A thrown value is network-style for the checker when it is an Error
instance, not an abort, whose message contains NetworkError or
Failed to fetch. -/
def isNetworkStyle (oc : FetchOutcome) : Prop :=
  ∃ n m, oc = FetchOutcome.thrown (ThrownValue.errObj n m) ∧ n ≠ "AbortError" ∧
    (containsSub m "NetworkError" || containsSub m "Failed to fetch") = true

/- ===== Helper lemmas ===== -/

/-- Both paths of one probe fill the data field with the Reachability Result. -/
theorem checkCommunityStatus_data (oc : FetchOutcome) (sT eT : Int) (stamp : String) :
    (checkCommunityStatus oc sT eT stamp).data = some (checkData oc sT eT stamp) := by
  cases oc <;> rfl

/-- A truthy optional string is non-empty. -/
theorem jsTruthy_some {a : Option String} {d : String} (h : jsTruthy a = some d) :
    d ≠ "" := by
  cases a with
  | none => simp [jsTruthy] at h
  | some s =>
    by_cases hs : s = "" <;> simp [jsTruthy, hs] at h
    exact h ▸ hs

/-- A network-style thrown value is classified offline by one probe. -/
theorem checkData_network {oc : FetchOutcome} (sT eT : Int) (stamp : String)
    (h : isNetworkStyle oc) :
    (checkData oc sT eT stamp).status = CheckStatus.offline := by
  obtain ⟨n, m, rfl, hn, hm⟩ := h
  simp [checkData, checkCommunityStatus, classifyThrown, hn, hm]

/-- The no-fault loop collects one Reachability Result per index, in order. -/
theorem runChecks_none_results (env : CheckEnv) (ms : Nat) :
    ∀ rem i, (runChecks env ms none i rem).1 =
      (List.range' i rem).map
        (fun j => checkData (env.outcome j) (env.startT j) (env.endT j) (env.stamp j)) := by
  intro rem
  induction rem with
  | zero => intro i; rfl
  | succ rem ih =>
    intro i
    simp only [runChecks, faultHere, checkCommunityStatus_data, List.range'_succ,
      List.map_cons, ih]
    rfl

/-- The no-fault loop never reports a fault message. -/
theorem runChecks_none_err (env : CheckEnv) (ms : Nat) :
    ∀ rem i, (runChecks env ms none i rem).2.2 = none := by
  intro rem
  induction rem with
  | zero => intro i; rfl
  | succ rem ih => intro i; simpa [runChecks, faultHere] using ih (i + 1)

/-- A faulting loop returns exactly the results the no-fault loop would have
produced up to the faulting iteration. -/
theorem runChecks_fault_results (env : CheckEnv) (ms k : Nat) (m : String) :
    ∀ rem i, i ≤ k →
      (runChecks env ms (some (k, m)) i rem).1 =
        (runChecks env ms none i (min rem (k - i))).1 := by
  intro rem
  induction rem with
  | zero => intro i _; simp [runChecks]
  | succ rem ih =>
    intro i hik
    by_cases hk : i = k
    · subst hk
      have h0 : min (rem + 1) (i - i) = 0 := by omega
      simp [runChecks, faultHere, h0]
    · have hlt : i < k := lt_of_le_of_ne hik hk
      have h1 : min (rem + 1) (k - i) = min rem (k - (i + 1)) + 1 := by omega
      rw [h1]
      simp only [runChecks, faultHere, if_neg hk]
      rw [ih (i + 1) (by omega)]

/-- A fault inside the loop is reported exactly when its index is reached. -/
theorem runChecks_fault_err (env : CheckEnv) (ms k : Nat) (m : String) :
    ∀ rem i, i ≤ k →
      (runChecks env ms (some (k, m)) i rem).2.2 =
        if k < i + rem then some m else none := by
  intro rem
  induction rem with
  | zero =>
    intro i hik
    have hni : ¬ k < i := by omega
    simp [runChecks, hni]
  | succ rem ih =>
    intro i hik
    by_cases hk : i = k
    · subst hk
      simp [runChecks, faultHere]
    · have hlt : i < k := lt_of_le_of_ne hik hk
      simp only [runChecks, faultHere, if_neg hk]
      rw [ih (i + 1) (by omega)]
      have harr : i + 1 + rem = i + (rem + 1) := by omega
      rw [harr]

/- ===== Claim theorems ===== -/

/-- Claim C1, counterexample: for an error carrying an HTTP 400 response with
no server-supplied text, the classifier's message is the raw error message,
not the fixed table message "Bad request - please check your input" that
`getErrorMessage` would return for that status, so the classified (code,
message) pair differs from the table pair. -/
theorem C1_table_message_counterexample :
    (handleApiError err400 12).code = some "BAD_REQUEST" ∧
    (handleApiError err400 12).message = "Request failed with status code 400" ∧
    getErrorMessage 400 (some emptyBody) = "Bad request - please check your input" ∧
    (handleApiError err400 12).message ≠ getErrorMessage 400 (some emptyBody) := by
  refine ⟨rfl, rfl, by decide, by decide⟩

/-- Claim C1, amended: for every raised error carrying an HTTP-style response
the classifier produces a Classified Error whose code is the fixed table code
for the status and whose status is the response status, but whose message is
the raw error's own message (falling back to "An unknown error occurred");
the table message computed by `getErrorMessage` is discarded.
`getErrorMessage` itself returns the fixed table messages, and a truthy
server-supplied detail overrides them only for 400, 404 and 422 — never for
401, 403, 500 or 503. -/
theorem C1_classifier_code_and_raw_message (e : RawError) (rt : Int)
    (r : HttpResponse) (h : e.response = some r) :
    (handleApiError e rt).code = some (getErrorCode r.status) ∧
    (handleApiError e rt).status = some r.status ∧
    (handleApiError e rt).message = jsOrStr e.message "An unknown error occurred" ∧
    (getErrorMessage 400 (some emptyBody) = "Bad request - please check your input" ∧
     getErrorMessage 401 (some emptyBody) = "Authentication required - please log in" ∧
     getErrorMessage 403 (some emptyBody) =
       "Access denied - you don" ++ apos ++ "t have permission for this action" ∧
     getErrorMessage 404 (some emptyBody) = "Resource not found" ∧
     getErrorMessage 422 (some emptyBody) = "Validation error - please check your input" ∧
     getErrorMessage 500 (some emptyBody) = "Server error - please try again later" ∧
     getErrorMessage 503 (some emptyBody) = "Service unavailable - please try again later") ∧
    (∀ rd d, jsTruthy rd.detail = some d →
       getErrorMessage 400 (some rd) = d ∧
       getErrorMessage 404 (some rd) = d ∧
       getErrorMessage 422 (some rd) = d ∧
       getErrorMessage 401 (some rd) = "Authentication required - please log in" ∧
       getErrorMessage 403 (some rd) =
         "Access denied - you don" ++ apos ++ "t have permission for this action" ∧
       getErrorMessage 500 (some rd) = "Server error - please try again later" ∧
       getErrorMessage 503 (some rd) = "Service unavailable - please try again later") := by
  obtain ⟨eresp, ecode, emsg⟩ := e
  simp only [RawError.response] at h
  subst h
  refine ⟨rfl, rfl, rfl, ⟨by decide, by decide, by decide, by decide, by decide,
    by decide, by decide⟩, ?_⟩
  intro rd d hd
  have hne : d ≠ "" := jsTruthy_some hd
  refine ⟨?_, ?_, ?_, rfl, rfl, rfl, rfl⟩ <;>
    simp [getErrorMessage, Option.bind, hd, jsOrStr, hne]

/-- Claim C1, witness: the amended theorem applied to the concrete 400
error. -/
theorem C1_classifier_witness :
    (handleApiError err400 12).code = some "BAD_REQUEST" ∧
    (handleApiError err400 12).message = "Request failed with status code 400" := by
  obtain ⟨h1, _h2, h3, _⟩ :=
    C1_classifier_code_and_raw_message err400 12 { status := 400, data := emptyBody } rfl
  exact ⟨h1.trans (by decide), h3.trans (by decide)⟩

/-- Claim C6: the classifier is deterministic and applies its predicates in
first-match order — an HTTP-shaped error is always classified by its status
(even when its message mentions a timeout), otherwise an ERR_NETWORK error is
NETWORK_ERROR with status 0, otherwise a message mentioning a timeout is
TIMEOUT with status 408, otherwise UNKNOWN_ERROR with status 500. -/
theorem C6_classifier_first_match_order (e : RawError) (rt : Int) :
    (∀ r, e.response = some r →
       (handleApiError e rt).code = some (getErrorCode r.status) ∧
       (handleApiError e rt).status = some r.status) ∧
    (e.response = none → e.code = some "ERR_NETWORK" →
       (handleApiError e rt).code = some "NETWORK_ERROR" ∧
       (handleApiError e rt).status = some 0) ∧
    (e.response = none → e.code ≠ some "ERR_NETWORK" →
       messageMentionsTimeout e = true →
       (handleApiError e rt).code = some "TIMEOUT" ∧
       (handleApiError e rt).status = some 408) ∧
    (e.response = none → e.code ≠ some "ERR_NETWORK" →
       messageMentionsTimeout e = false →
       (handleApiError e rt).code = some "UNKNOWN_ERROR" ∧
       (handleApiError e rt).status = some 500) ∧
    (∀ r m, e.response = some r → e.message = some m → containsSub m "timeout" = true →
       (handleApiError e rt).code = some (getErrorCode r.status) ∧
       (handleApiError e rt).status = some r.status) := by
  obtain ⟨eresp, ecode, emsg⟩ := e
  refine ⟨?_, ?_, ?_, ?_, ?_⟩
  · intro r hr
    simp only [RawError.response] at hr
    subst hr
    exact ⟨rfl, rfl⟩
  · intro hresp hcode
    simp only [RawError.response] at hresp
    simp only [RawError.code] at hcode
    subst hresp
    simp [handleApiError, hcode, createApiError]
  · intro hresp hcode hto
    simp only [RawError.response] at hresp
    simp only [RawError.code] at hcode
    subst hresp
    simp [handleApiError, hcode, hto, createApiError]
  · intro hresp hcode hto
    simp only [RawError.response] at hresp
    simp only [RawError.code] at hcode
    subst hresp
    simp [handleApiError, hcode, hto, createApiError]
  · intro r m hr _hm _hcm
    simp only [RawError.response] at hr
    subst hr
    exact ⟨rfl, rfl⟩

/-- Claim C6, witness: an error carrying both an HTTP 503 response and a
message containing the word timeout is classified by the status, yielding
SERVICE_UNAVAILABLE rather than TIMEOUT. -/
theorem C6_classifier_order_witness :
    (handleApiError timeoutHttpError 3).code = some "SERVICE_UNAVAILABLE" ∧
    (handleApiError timeoutHttpError 3).status = some 503 := by
  have h := (C6_classifier_first_match_order timeoutHttpError 3).2.2.2.2
    { status := 503, data := emptyBody } "timeout of 10000ms exceeded" rfl rfl (by decide)
  exact ⟨h.1.trans (by decide), h.2⟩

/-- Claim C3: a wrapper with no transport installed reports not connected,
and every request on a not-connected wrapper fails with the
SERVICE_NOT_CONNECTED classified error, performs no transport call, and
leaves the request counter at its prior value; installing a non-null
transport makes the wrapper connected. -/
theorem C3_not_connected_behavior :
    (∀ (P R : Type), isServiceConnected (initialWrapperState (P := P) (R := R)) = false) ∧
    (∀ (P R : Type) (st : WrapperState P R), isServiceConnected st = false →
       ∀ (method : Method) (path : String) (data : Option P) (sT eT : Int) (stamp : String),
         (makeRequest st method path data sT eT stamp).outcome = Except.error notConnectedError ∧
         notConnectedError.code = some "SERVICE_NOT_CONNECTED" ∧
         notConnectedError.status = some 503 ∧
         (makeRequest st method path data sT eT stamp).calls = [] ∧
         (makeRequest st method path data sT eT stamp).state.requestCount = st.requestCount) ∧
    (∀ (P R : Type) (st : WrapperState P R) (t : Transport P R),
       isServiceConnected (setServiceBridge st (some t)) = true) := by
  refine ⟨fun P R => rfl, ?_, ?_⟩
  · intro P R st h method path data sT eT stamp
    obtain ⟨sApi, sConn, sCount⟩ := st
    cases sConn with
    | false => exact ⟨rfl, rfl, rfl, rfl, rfl⟩
    | true =>
      cases sApi with
      | none => exact ⟨rfl, rfl, rfl, rfl, rfl⟩
      | some t => simp [isServiceConnected] at h
  · intro P R st t
    simp [setServiceBridge, isServiceConnected]

/-- Claim C3, witness: the behaviour applied to a never-connected wrapper
whose counter already stands at 5. -/
theorem C3_not_connected_witness :
    (makeRequest disconnectedState Method.GET "/x" none 0 1 "t").outcome
        = Except.error notConnectedError ∧
    (makeRequest disconnectedState Method.GET "/x" none 0 1 "t").calls = [] ∧
    (makeRequest disconnectedState Method.GET "/x" none 0 1 "t").state.requestCount = 5 := by
  have h := C3_not_connected_behavior.2.1 Unit Unit disconnectedState rfl
    Method.GET "/x" none 0 1 "t"
  exact ⟨h.1, h.2.2.2.1, h.2.2.2.2.trans rfl⟩

/-- Claim C10: whenever a wrapper request completes successfully, the
returned response envelope's status field is 200, regardless of the actual
status of the underlying response. -/
theorem C10_success_status_200 {P R : Type} (st : WrapperState P R)
    (method : Method) (path : String) (data : Option P) (sT eT : Int)
    (stamp : String) (resp : ApiResponse R)
    (h : (makeRequest st method path data sT eT stamp).outcome = Except.ok resp) :
    resp.status = 200 := by
  obtain ⟨sApi, sConn, sCount⟩ := st
  cases sConn with
  | false => simp [makeRequest] at h
  | true =>
    cases sApi with
    | none => simp [makeRequest] at h
    | some t =>
      cases ht : runTransport t method path data with
      | ok r =>
        simp [makeRequest, ht] at h
        subst h
        rfl
      | error e => simp [makeRequest, ht] at h

/-- Claim C10, witness: the theorem applied to a connected wrapper whose
transport resolves. -/
theorem C10_success_status_witness :
    ∃ resp, (makeRequest okUnitState Method.GET "/x" none 0 1 "t").outcome
        = Except.ok resp ∧ resp.status = 200 := by
  refine ⟨{ data := (), status := 200, responseTime := 1, timestamp := "t" }, rfl, ?_⟩
  exact C10_success_status_200 okUnitState Method.GET "/x" none 0 1 "t" _ rfl

/-- Claim C2: evaluation at a connected wrapper whose transport rejects with
an HTTP 404.  The wrapper raises a classified error whose message is the raw
message "Request failed with status code 404", but `getItems` stores the
fixed fallback "Failed to fetch items" in the envelope, because the raised
classified error is an object literal and fails the catch block's
`instanceof Error` test — the classified message does not survive to the
envelope. -/
theorem C2_envelope_fallback_eval :
    (getItems failingItemsState 0 9 1 2 "t").envelope.success = false ∧
    (getItems failingItemsState 0 9 1 2 "t").envelope.error = some "Failed to fetch items" ∧
    (handleApiError err404 1).message = "Request failed with status code 404" ∧
    (handleApiError err404 1).code = some "NOT_FOUND" ∧
    (getItems failingItemsState 0 9 1 2 "t").envelope.error
        ≠ some (handleApiError err404 1).message := by
  refine ⟨rfl, rfl, rfl, rfl, by decide⟩

/-- Claim C7: an input whose name is absent or empty after trimming makes
`createItem` fail fast with the local validation error "Item name is
required" — a failure envelope, no wrapper invocation, and an unchanged
request counter; an input with a non-empty trimmed name issues exactly one
POST on baseUrl/items. -/
theorem C7_create_validation_gate (st : WrapperState CreateItemRequest DemoItemResponse)
    (itemData : CreateItemRequest) (oS oE rS rE : Int) (stamp : String) :
    ((itemData.name = none ∨ ∃ n, itemData.name = some n ∧ jsTrim n = "") →
       (createItem st itemData oS oE rS rE stamp).envelope.success = false ∧
       (createItem st itemData oS oE rS rE stamp).envelope.error = some "Item name is required" ∧
       (createItem st itemData oS oE rS rE stamp).calls = [] ∧
       (createItem st itemData oS oE rS rE stamp).state.requestCount = st.requestCount) ∧
    (∀ n, itemData.name = some n → jsTrim n ≠ "" →
       (createItem st itemData oS oE rS rE stamp).calls
           = [(Method.POST, baseUrl ++ "/items")]) := by
  constructor
  · intro hval
    have hguard : jsTruthy (itemData.name.map jsTrim) = none := by
      rcases hval with h | ⟨n, hn, ht⟩
      · simp [h, jsTruthy]
      · simp [hn, jsTruthy, ht]
    simp [createItem, hguard, caughtMessage]
  · intro n hn ht
    have hguard : ¬ jsTruthy (itemData.name.map jsTrim) = none := by
      simp [hn, jsTruthy, ht]
    simp only [createItem, if_neg hguard]
    cases hr : (makeRequest st Method.POST (baseUrl ++ "/items") (some itemData)
        rS rE stamp).outcome <;> simp [hr]

/-- Claim C7, witness: the gate applied to an all-whitespace name and to a
non-empty name, on the freshly constructed wrapper. -/
theorem C7_create_validation_witness :
    (createItem initialWrapperState { name := some "   ", description := "d" }
        0 1 2 3 "t").envelope.error = some "Item name is required" ∧
    (createItem initialWrapperState { name := some "   ", description := "d" }
        0 1 2 3 "t").calls = [] ∧
    (createItem initialWrapperState { name := some "ok", description := "d" }
        0 1 2 3 "t").calls = [(Method.POST, baseUrl ++ "/items")] := by
  have h1 := (C7_create_validation_gate initialWrapperState
    { name := some "   ", description := "d" } 0 1 2 3 "t").1
    (Or.inr ⟨"   ", rfl, by decide⟩)
  have h2 := (C7_create_validation_gate initialWrapperState
    { name := some "ok", description := "d" } 0 1 2 3 "t").2 "ok" rfl (by decide)
  exact ⟨h1.2.1, h1.2.2.1, h2⟩

/-- Claim C8: `validateItemData` is pure and accumulates violations — a
present name that trims empty yields the name-required message, a present
name longer than 100 characters yields the name-length message, a present
description longer than 500 characters yields the description-length
message, isValid holds exactly when the errors list is empty, and the three
concrete spec instances evaluate as stated, with a doubly invalid input
collecting both messages. -/
theorem C8_validate_rules :
    (∀ d : ItemData, (validateItemData d).isValid = true ↔ (validateItemData d).errors = []) ∧
    (∀ (d : ItemData) (n : String), d.name = some n → jsTrim n = "" →
       "Name is required" ∈ (validateItemData d).errors) ∧
    (∀ (d : ItemData) (n : String), d.name = some n → jsTrim n ≠ "" → n.length > 100 →
       "Name must be 100 characters or less" ∈ (validateItemData d).errors) ∧
    (∀ (d : ItemData) (s : String), d.description = some s → s.length > 500 →
       "Description must be 500 characters or less" ∈ (validateItemData d).errors) ∧
    validateItemData { name := some "", description := none }
        = { isValid := false, errors := ["Name is required"] } ∧
    validateItemData { name := some "ok", description := some (longStr 501) }
        = { isValid := false, errors := ["Description must be 500 characters or less"] } ∧
    validateItemData { name := some "ok", description := some "short" }
        = { isValid := true, errors := [] } ∧
    validateItemData { name := some (longStr 101), description := some (longStr 501) }
        = { isValid := false
            errors := ["Name must be 100 characters or less",
                       "Description must be 500 characters or less"] } := by
  refine ⟨?_, ?_, ?_, ?_, by decide, by decide, by decide, by decide⟩
  · intro d
    rw [show (validateItemData d).isValid = (validateItemData d).errors.isEmpty from rfl]
    cases (validateItemData d).errors <;> simp
  · intro d n hdn ht
    simp [validateItemData, hdn, ht]
  · intro d n hdn ht hlen
    simp [validateItemData, hdn, ht, hlen]
  · intro d s hds hlen
    simp [validateItemData, hds, hlen]

/-- Claim C8, witness: the general rules applied to concrete inputs. -/
theorem C8_validate_witness :
    "Name is required" ∈ (validateItemData { name := some " ", description := none }).errors ∧
    ((validateItemData { name := some "ok", description := none }).isValid = true ↔
      (validateItemData { name := some "ok", description := none }).errors = []) := by
  exact ⟨C8_validate_rules.2.1 { name := some " ", description := none } " " rfl (by decide),
    C8_validate_rules.1 { name := some "ok", description := none }⟩

/-- Claim C4: one probe classifies every outcome as the source does — a
fetch that resolves is online regardless of status code; a thrown abort is
an error-status result with message exactly "Request timeout after 10
seconds" and never offline; a thrown network-style failure is offline; any
other thrown Error is offline carrying its raw message; a thrown non-Error
value is offline with "Unknown error". -/
theorem C4_checkOnce_classification (sT eT : Int) (stamp : String) :
    (∀ s, (checkData (FetchOutcome.ok s) sT eT stamp).status = CheckStatus.online) ∧
    (∀ m,
      (checkData (FetchOutcome.thrown (ThrownValue.errObj "AbortError" m)) sT eT stamp).status
          = CheckStatus.error ∧
      (checkData (FetchOutcome.thrown (ThrownValue.errObj "AbortError" m)) sT eT stamp).error
          = some "Request timeout after 10 seconds" ∧
      (checkData (FetchOutcome.thrown (ThrownValue.errObj "AbortError" m)) sT eT stamp).status
          ≠ CheckStatus.offline) ∧
    (∀ n m, n ≠ "AbortError" →
      (containsSub m "NetworkError" || containsSub m "Failed to fetch") = true →
      (checkData (FetchOutcome.thrown (ThrownValue.errObj n m)) sT eT stamp).status
          = CheckStatus.offline) ∧
    (∀ n m, n ≠ "AbortError" →
      (containsSub m "NetworkError" || containsSub m "Failed to fetch") = false →
      (checkData (FetchOutcome.thrown (ThrownValue.errObj n m)) sT eT stamp).status
          = CheckStatus.offline ∧
      (checkData (FetchOutcome.thrown (ThrownValue.errObj n m)) sT eT stamp).error = some m) ∧
    ((checkData (FetchOutcome.thrown ThrownValue.nonError) sT eT stamp).status
          = CheckStatus.offline ∧
     (checkData (FetchOutcome.thrown ThrownValue.nonError) sT eT stamp).error
          = some "Unknown error") := by
  refine ⟨fun s => rfl, fun m => ⟨rfl, rfl, by simp [checkData, checkCommunityStatus, classifyThrown]⟩,
    ?_, ?_, rfl, rfl⟩
  · intro n m hn hm
    simp [checkData, checkCommunityStatus, classifyThrown, hn, hm]
  · intro n m hn hm
    constructor <;> simp [checkData, checkCommunityStatus, classifyThrown, hn, hm]

/-- Claim C4, witness: the classification applied to a concrete abort and a
concrete network failure. -/
theorem C4_checkOnce_witness :
    (checkData (FetchOutcome.thrown (ThrownValue.errObj "AbortError" "signal is aborted"))
        0 3 "t").error = some "Request timeout after 10 seconds" ∧
    (checkData (FetchOutcome.thrown (ThrownValue.errObj "TypeError" "Failed to fetch"))
        0 3 "t").status = CheckStatus.offline := by
  obtain ⟨_h1, h2, h3, _h4, _h5⟩ := C4_checkOnce_classification 0 3 "t"
  exact ⟨(h2 "signal is aborted").2.1, h3 "TypeError" "Failed to fetch" (by decide) (by decide)⟩

/-- Claim C9, counterexample: a probe rejecting with an Error instance whose
message is the empty string (neither an abort nor a network-style failure)
yields an offline result whose error text is the empty string, so an offline
result does not always carry a non-empty error text. -/
theorem C9_nonempty_error_counterexample :
    (checkData (FetchOutcome.thrown (ThrownValue.errObj "SomeError" "")) 0 5 "t").status
        = CheckStatus.offline ∧
    (checkData (FetchOutcome.thrown (ThrownValue.errObj "SomeError" "")) 0 5 "t").error
        = some "" := by
  exact ⟨rfl, rfl⟩

/-- Claim C9, amended: an online Reachability Result never carries an error
text; an offline or error result always carries an error text (a non-null
string), and that text is the empty string only when the thrown value was an
Error instance with an empty message that is neither an abort nor a
network-style failure. -/
theorem C9_error_text_invariant_amended (oc : FetchOutcome) (sT eT : Int) (stamp : String) :
    ((checkData oc sT eT stamp).status = CheckStatus.online →
       (checkData oc sT eT stamp).error = none) ∧
    ((checkData oc sT eT stamp).status = CheckStatus.offline ∨
       (checkData oc sT eT stamp).status = CheckStatus.error →
       ∃ s, (checkData oc sT eT stamp).error = some s) ∧
    ((checkData oc sT eT stamp).error = some "" →
       ∃ n, oc = FetchOutcome.thrown (ThrownValue.errObj n "") ∧ n ≠ "AbortError") := by
  cases oc with
  | ok s =>
    refine ⟨fun _ => rfl, ?_, ?_⟩
    · intro hor
      rcases hor with h | h <;> simp [checkData, checkCommunityStatus] at h
    · intro he
      simp [checkData, checkCommunityStatus] at he
  | thrown v =>
    cases v with
    | nonError =>
      refine ⟨?_, fun _ => ⟨"Unknown error", rfl⟩, ?_⟩
      · intro h
        simp [checkData, checkCommunityStatus, classifyThrown] at h
      · intro he
        rw [show (checkData (FetchOutcome.thrown ThrownValue.nonError) sT eT stamp).error
            = some "Unknown error" from rfl] at he
        exact absurd (Option.some.inj he) (by decide)
    | errObj n m =>
      by_cases hab : n = "AbortError"
      · subst hab
        refine ⟨?_, fun _ => ⟨"Request timeout after 10 seconds", rfl⟩, ?_⟩
        · intro h
          simp [checkData, checkCommunityStatus, classifyThrown] at h
        · intro he
          rw [show (checkData (FetchOutcome.thrown (ThrownValue.errObj "AbortError" m)) sT eT stamp).error
              = some "Request timeout after 10 seconds" from rfl] at he
          exact absurd (Option.some.inj he) (by decide)
      · by_cases hnet : (containsSub m "NetworkError" || containsSub m "Failed to fetch") = true
        · refine ⟨?_, ?_, ?_⟩
          · intro h
            simp [checkData, checkCommunityStatus, classifyThrown, hab, hnet] at h
          · intro _
            exact ⟨"Network error - site may be down or unreachable",
              by simp [checkData, checkCommunityStatus, classifyThrown, hab, hnet]⟩
          · intro he
            simp [checkData, checkCommunityStatus, classifyThrown, hab, hnet] at he
        · have hnet2 : (containsSub m "NetworkError" || containsSub m "Failed to fetch") = false :=
            Bool.not_eq_true _ ▸ Bool.eq_false_iff.mpr hnet
          refine ⟨?_, ?_, ?_⟩
          · intro h
            simp [checkData, checkCommunityStatus, classifyThrown, hab, hnet2] at h
          · intro _
            exact ⟨m, by simp [checkData, checkCommunityStatus, classifyThrown, hab, hnet2]⟩
          · intro he
            have hm : m = "" := by
              have := he
              simp [checkData, checkCommunityStatus, classifyThrown, hab, hnet2] at this
              exact this
            exact ⟨n, by rw [hm], hab⟩

/-- Claim C9, witness: the amended invariant applied to a resolving probe
and to a network failure. -/
theorem C9_error_text_witness :
    (checkData (FetchOutcome.ok 7) 0 1 "t").error = none ∧
    ∃ s, (checkData (FetchOutcome.thrown (ThrownValue.errObj "TypeError" "Failed to fetch"))
        0 1 "t").error = some s := by
  refine ⟨(C9_error_text_invariant_amended (FetchOutcome.ok 7) 0 1 "t").1 rfl, ?_⟩
  exact (C9_error_text_invariant_amended
    (FetchOutcome.thrown (ThrownValue.errObj "TypeError" "Failed to fetch")) 0 1 "t").2.1
    (Or.inl (by decide))

/-- Claim C5: `performMultipleChecks(3, 100)` against a target that always
fails with a network error runs its probes sequentially with one 100ms sleep
between consecutive probes and none before the first, returns exactly three
Reachability Results, all offline, with an online-count summary of zero, and
completes successfully (no throw); moreover a fault inside the loop never
discards the results of the checks already completed — they come back in a
failure envelope carrying the fault message. -/
theorem C5_checkMany_behavior (env : CheckEnv) (sT eT : Int)
    (hnet : ∀ i, isNetworkStyle (env.outcome i)) :
    ((performMultipleChecks env 3 100 none sT eT).1.success = true ∧
     (performMultipleChecks env 3 100 none sT eT).1.error = none ∧
     (performMultipleChecks env 3 100 none sT eT).2 =
       [CheckEvent.probe 0, CheckEvent.sleep 100, CheckEvent.probe 1,
        CheckEvent.sleep 100, CheckEvent.probe 2] ∧
     ∃ rs, (performMultipleChecks env 3 100 none sT eT).1.data = some rs ∧
       rs.length = 3 ∧ (∀ x ∈ rs, x.status = CheckStatus.offline) ∧
       onlineCount rs = 0) ∧
    (∀ count intervalMs k m, k < count →
       (performMultipleChecks env count intervalMs (some (k, m)) sT eT).1.success = false ∧
       (performMultipleChecks env count intervalMs (some (k, m)) sT eT).1.error = some m ∧
       (performMultipleChecks env count intervalMs (some (k, m)) sT eT).1.data =
         (performMultipleChecks env k intervalMs none sT eT).1.data) := by
  constructor
  · refine ⟨rfl, rfl, rfl, ?_⟩
    refine ⟨(List.range' 0 3).map
      (fun j => checkData (env.outcome j) (env.startT j) (env.endT j) (env.stamp j)), ?_, ?_, ?_, ?_⟩
    · show some ((runChecks env 100 none 0 3).1) = _
      rw [runChecks_none_results]
    · simp
    · intro x hx
      rw [List.mem_map] at hx
      obtain ⟨j, _hj, rfl⟩ := hx
      exact checkData_network (env.startT j) (env.endT j) (env.stamp j) (hnet j)
    · have hall : ∀ x ∈ (List.range' 0 3).map
          (fun j => checkData (env.outcome j) (env.startT j) (env.endT j) (env.stamp j)),
          ¬ (x.status == CheckStatus.online) = true := by
        intro x hx
        rw [List.mem_map] at hx
        obtain ⟨j, _hj, rfl⟩ := hx
        rw [checkData_network (env.startT j) (env.endT j) (env.stamp j) (hnet j)]
        decide
      unfold onlineCount
      rw [List.filter_eq_nil_iff.mpr hall]
      rfl
  · intro count intervalMs k m hk
    have h1 := runChecks_fault_err env intervalMs k m count 0 (Nat.zero_le k)
    have h2 := runChecks_fault_results env intervalMs k m count 0 (Nat.zero_le k)
    have hmin : min count (k - 0) = k := by omega
    rw [hmin] at h2
    have hif : (if k < 0 + count then some m else none) = some m := by
      rw [if_pos]; omega
    rw [hif] at h1
    refine ⟨?_, ?_, ?_⟩ <;>
      simp [performMultipleChecks, h1, h2, runChecks_none_err]

/-- Claim C5, witness: the behaviour applied to the all-network-failure
environment. -/
theorem C5_checkMany_witness :
    (performMultipleChecks netFailEnv 3 100 none 0 9).1.success = true ∧
    (performMultipleChecks netFailEnv 3 100 none 0 9).1.error = none ∧
    (performMultipleChecks netFailEnv 3 100 none 0 9).2 =
      [CheckEvent.probe 0, CheckEvent.sleep 100, CheckEvent.probe 1,
       CheckEvent.sleep 100, CheckEvent.probe 2] := by
  have h := C5_checkMany_behavior netFailEnv 0 9
    (fun i => ⟨"TypeError", "Failed to fetch", rfl, by decide, by decide⟩)
  exact ⟨h.1.1, h.1.2.1, h.1.2.2.1⟩
